import Mathlib

/-!
Verification development for the SpotifyResearch repository.

The subject is the dynamic aggregation endpoint aggregate_data in
src/Backend/main.py (lines 156-253).  The definitions below are a shallow
embedding of that function: the comma-splitting and stripping of the
query-string parameters, the allow-list validation of group_by columns,
the assembly of the parameterized statement text and its ordered bind
values, and a deterministic model of what the generated SQL computes over
the spotify_streams table (GROUP BY with SUM/COUNT, the window-ranked
variant, ORDER BY total_minutes DESC, LIMIT).  Store-side tie-breaking,
which the SQL leaves unspecified, is resolved deterministically
(first-appearance order for groups, stable sorting), matching one
legitimate store behaviour.
-/

set_option maxRecDepth 10000

namespace SpotifyResearch

/-- Scalar value held by one groupable dimension of a play record: the
spotify_streams columns are strings or integers. -/
inductive DimVal where
  | s (v : String)
  | i (v : Int)
deriving Repr, DecidableEq, Inhabited

/-- One row of the spotify_streams table, restricted to the attributes the
aggregate endpoint reads: the seven groupable dimensions plus
minutes_played. -/
structure PlayRecord where
  artist_name : String
  track_name : String
  album_name : String
  year : Int
  month : Int
  day_of_week : String
  hour : Int
  minutes_played : ℚ
deriving Repr, DecidableEq

/-- One bind value passed to cursor.execute alongside the statement text:
the code binds strings (artist names) and integers (years and the limit). -/
inductive BindValue where
  | s (v : String)
  | i (v : Int)
deriving Repr, DecidableEq

/-- The typed query parameters of GET /api/aggregate as FastAPI hands them
to aggregate_data (lines 157-162): a required group_by string, two optional
filter strings, a bounded integer limit and the top_per_group flag. -/
structure AggregateRequest where
  group_by : String
  filter_artists : Option String
  filter_years : Option String
  limit : Nat
  top_per_group : Bool
deriving Repr, DecidableEq

/-- Errors the endpoint's build phase can raise: an HTTPException with a
status code and detail string (line 173), or an uncaught Python ValueError
from int() (line 192) carrying the rejected literal; storeError stands for
a psycopg2 exception raised by the store during execution. -/
inductive PyError where
  | httpException (status : Nat) (detail : String)
  | valueError (badLiteral : String)
  | storeError
deriving Repr, DecidableEq

/-- Classifier for the error channel: an HTTPException raised inside a
FastAPI handler produces a client-error response with its status code,
while any other uncaught exception (ValueError, psycopg2 errors) is
surfaced by FastAPI as a 500 server error. -/
def isClientError : PyError → Bool
  | .httpException _ _ => true
  | _ => false

/-- Python str.strip on a character list: whitespace removed from both
ends. -/
def pyStripChars (cs : List Char) : List Char :=
  ((cs.dropWhile Char.isWhitespace).reverse.dropWhile Char.isWhitespace).reverse

/-- Python str.strip. -/
def pyStrip (s : String) : String :=
  String.mk (pyStripChars s.data)

/-- Python str.split with a one-character separator: splitting at every
occurrence yields one piece per gap, keeping empty pieces, and always at
least one piece. -/
def pySplit (sep : Char) : List Char → List (List Char)
  | [] => [[]]
  | c :: rest =>
    match pySplit sep rest with
    | [] => [[]]
    | piece :: more => if c = sep then [] :: piece :: more else (c :: piece) :: more

/-- Python value.split(sep) on strings. -/
def pySplitStr (sep : Char) (s : String) : List String :=
  (pySplit sep s.data).map String.mk

/-- Comma-split then strip each token: the parse the endpoint applies to
group_by (line 165) and to each comma-separated filter string (lines 185
and 192). -/
def csvTokens (s : String) : List String :=
  (pySplitStr ',' s).map pyStrip

/-- Accumulator loop for a run of decimal digits; fails on a non-digit. -/
def decDigitsAux : List Char → Nat → Option Nat
  | [], acc => some acc
  | c :: rest, acc =>
    if c.isDigit then decDigitsAux rest (acc * 10 + (c.toNat - '0'.toNat)) else none

/-- Python int(s) on an already-stripped token: an optional sign followed
by at least one decimal digit; any other shape raises ValueError, which we
model as none. -/
def pyInt (s : String) : Option Int :=
  match s.data with
  | [] => none
  | '-' :: rest => if rest = [] then none else (decDigitsAux rest 0).map (fun n => -(n : Int))
  | '+' :: rest => if rest = [] then none else (decDigitsAux rest 0).map (fun n => (n : Int))
  | cs => (decDigitsAux cs 0).map (fun n => (n : Int))

/-- Left-to-right int() conversion of the year tokens (line 192): the list
comprehension raises Python ValueError at the first token int() rejects,
so the error carries that first offending token. -/
def intListOf : List String → Except String (List Int)
  | [] => .ok []
  | t :: ts =>
    match pyInt t with
    | none => .error t
    | some n => (intListOf ts).map (fun l => n :: l)

/-- Truthiness of an optional string query parameter: Python's
if filter_artists: is false for None and for the empty string. -/
def truthy : Option String → Bool
  | none => false
  | some s => !s.isEmpty

/-- Parsed artist filter (lines 184-188): when the parameter is truthy the
filter is the list of stripped comma-separated tokens, otherwise absent. -/
def artistFilterOf (fa : Option String) : Option (List String) :=
  if truthy fa then some (csvTokens (fa.getD "")) else none

/-- Parsed year filter (lines 190-195): when the parameter is truthy every
stripped token is passed through int(), failing at the first bad literal;
otherwise the filter is absent. -/
def yearFilterRes (fy : Option String) : Except String (Option (List Int)) :=
  if truthy fy then (intListOf (csvTokens (fy.getD ""))).map some else .ok none

/-- Python sep.join(pieces). -/
def pyJoin (sep : String) : List String → String
  | [] => ""
  | [x] => x
  | x :: xs => x ++ sep ++ pyJoin sep xs

/-- The placeholder list for an IN-clause with n values (lines 186 and
193): a comma-joined run of n times the %s marker, one per value. -/
def placeholders (n : Nat) : String :=
  pyJoin ", " (List.replicate n "%s")

/-- The allow-list of groupable columns (lines 168-169). -/
def ALLOWED_GROUP_BY : List String :=
  ["artist_name", "track_name", "album_name", "year", "month", "day_of_week", "hour"]

/-- Literal piece of the plain query f-string before the select list. -/
def plainFragA : String := "\n            SELECT "

/-- Literal piece of the plain query f-string between the select list and
the WHERE condition. -/
def plainFragB : String :=
  ", \n                   SUM(minutes_played) as total_minutes,\n                   COUNT(*) as play_count\n            FROM spotify_streams\n            WHERE "

/-- Literal piece of the plain query f-string between the WHERE condition
and the GROUP BY list. -/
def plainFragC : String := "\n            GROUP BY "

/-- Literal tail of the plain query f-string, ending in the LIMIT
placeholder. -/
def plainFragD : String :=
  "\n            ORDER BY total_minutes DESC\n            LIMIT %s\n        "

/-- Statement text of the plain aggregate query (lines 223-232), the
f-string split at its interpolation points. -/
def plainQueryText (select_columns where_sql group_by_clause : String) : String :=
  plainFragA ++ select_columns ++ plainFragB ++ where_sql ++ plainFragC ++
    group_by_clause ++ plainFragD

/-- Literal piece of the ranked query f-string before the inner select
list. -/
def rankedFragA : String := "\n            WITH ranked AS (\n                SELECT "

/-- Literal piece of the ranked query f-string between the inner select
list and the partition column. -/
def rankedFragB : String :=
  ", \n                       SUM(minutes_played) as total_minutes,\n                       COUNT(*) as play_count,\n                       ROW_NUMBER() OVER (PARTITION BY "

/-- Literal piece of the ranked query f-string between the partition
column and the WHERE condition. -/
def rankedFragC : String :=
  " ORDER BY SUM(minutes_played) DESC) as rn\n                FROM spotify_streams\n                WHERE "

/-- Literal piece of the ranked query f-string between the WHERE condition
and the GROUP BY list. -/
def rankedFragD : String := "\n                GROUP BY "

/-- Literal piece of the ranked query f-string between the GROUP BY list
and the outer select list. -/
def rankedFragE : String := "\n            )\n            SELECT "

/-- Literal tail of the ranked query f-string, ending in the LIMIT
placeholder. -/
def rankedFragF : String :=
  ", total_minutes, play_count\n            FROM ranked\n            WHERE rn = 1\n            ORDER BY total_minutes DESC\n            LIMIT %s\n        "

/-- Statement text of the window-ranked query (lines 206-221), the
f-string split at its interpolation points. -/
def rankedQueryText (select_columns primary_group where_sql group_by_clause : String) : String :=
  rankedFragA ++ select_columns ++ rankedFragB ++ primary_group ++ rankedFragC ++
    where_sql ++ rankedFragD ++ group_by_clause ++ rankedFragE ++ select_columns ++
    rankedFragF

/-- The query plan: statement text plus ordered bind values as handed to
cursor.execute (line 238), together with the structured request data they
were assembled from — the store model interprets the structured fields
rather than re-parsing SQL text. -/
structure QueryPlan where
  query : String
  params : List BindValue
  columns : List String
  artistF : Option (List String)
  yearF : Option (List Int)
  limit : Nat
  ranked : Bool
deriving Repr, DecidableEq, Inhabited

/-- Assembly of the statement text and bind values from the validated
pieces (lines 176-234): SELECT and GROUP BY lists from the validated
columns, one IN-clause with one %s per value for each present filter,
clauses joined by AND with the always-true 1=1 fallback, the ranked shape
chosen exactly when top_per_group holds and more than one column was
requested, and the limit appended last to the params. -/
def mkPlan (cols : List String) (artistF : Option (List String))
    (yearF : Option (List Int)) (lim : Nat) (tpg : Bool) : QueryPlan :=
  let select_columns := pyJoin ", " cols
  let group_by_clause := pyJoin ", " cols
  let artistPart : List String × List BindValue :=
    match artistF with
    | some l => (["artist_name IN (" ++ placeholders l.length ++ ")"], l.map BindValue.s)
    | none => ([], [])
  let yearPart : List String × List BindValue :=
    match yearF with
    | some l => (["year IN (" ++ placeholders l.length ++ ")"], l.map BindValue.i)
    | none => ([], [])
  let where_clauses := artistPart.1 ++ yearPart.1
  let baseParams := artistPart.2 ++ yearPart.2
  let where_sql := if where_clauses.isEmpty then "1=1" else pyJoin " AND " where_clauses
  let isRanked := tpg && decide (1 < cols.length)
  let query :=
    if isRanked then
      rankedQueryText select_columns (cols.headD "") where_sql group_by_clause
    else
      plainQueryText select_columns where_sql group_by_clause
  { query := query
    params := baseParams ++ [BindValue.i (lim : Int)]
    columns := cols
    artistF := artistF
    yearF := yearF
    limit := lim
    ranked := isRanked }

/-- Build phase over preprocessed inputs, in source order: allow-list
validation of every column first (lines 171-173, raising HTTPException 400
naming the first offending column), then the year filter parse whose
failure propagates as an uncaught ValueError, then plan assembly. -/
def buildPlanCore (cols : List String) (artistF : Option (List String))
    (yearRes : Except String (Option (List Int))) (lim : Nat) (tpg : Bool) :
    Except PyError QueryPlan :=
  match cols.find? (fun c => decide (c ∉ ALLOWED_GROUP_BY)) with
  | some c => .error (.httpException 400 ("Invalid column: " ++ c))
  | none =>
    match yearRes with
    | .error v => .error (.valueError v)
    | .ok yearF => .ok (mkPlan cols artistF yearF lim tpg)

/-- The build phase of aggregate_data (lines 164-234): parse and strip the
group_by tokens and the two filters, validate, and assemble the plan. -/
def buildPlan (req : AggregateRequest) : Except PyError QueryPlan :=
  buildPlanCore (csvTokens req.group_by) (artistFilterOf req.filter_artists)
    (yearFilterRes req.filter_years) req.limit req.top_per_group

/-- One output row of the aggregate query: the grouping-key values in
request order, then total_minutes and play_count (lines 243-251 zip these
positionally into the response object). -/
structure AggRow where
  key : List DimVal
  total_minutes : ℚ
  play_count : Nat
deriving Repr, DecidableEq, Inhabited

/-- Value of a validated column name on a play record: the column-to-value
map of the spotify_streams schema. -/
def dimValue (r : PlayRecord) (col : String) : DimVal :=
  if col = "artist_name" then .s r.artist_name
  else if col = "track_name" then .s r.track_name
  else if col = "album_name" then .s r.album_name
  else if col = "year" then .i r.year
  else if col = "month" then .i r.month
  else if col = "day_of_week" then .s r.day_of_week
  else if col = "hour" then .i r.hour
  else .s ""

/-- GROUP BY key of a record for the requested column sequence. -/
def groupKey (cols : List String) (r : PlayRecord) : List DimVal :=
  cols.map (dimValue r)

/-- Semantics of the generated WHERE clause: the AND of one IN-list
membership test per present filter, and the always-true 1=1 when no
filter is present. -/
def rowMatches (artistF : Option (List String)) (yearF : Option (List Int))
    (r : PlayRecord) : Bool :=
  (match artistF with
   | some l => l.contains r.artist_name
   | none => true) &&
  (match yearF with
   | some l => l.contains r.year
   | none => true)

/-- Duplicate removal keeping the first occurrence of each element: the
deterministic order in which the store model lists GROUP BY groups. -/
def firstDedup {α : Type} [DecidableEq α] (l : List α) : List α :=
  l.foldl (fun acc a => if a ∈ acc then acc else acc ++ [a]) []

/-- Semantics of GROUP BY cols with SUM(minutes_played) and COUNT(*): one
AggRow per distinct key of the filtered rows, in first-appearance order,
carrying the sum of minutes_played and the row count of its group. -/
def groupAgg (cols : List String) (rows : List PlayRecord) : List AggRow :=
  (firstDedup (rows.map (groupKey cols))).map (fun k =>
    let grp := rows.filter (fun r => decide (groupKey cols r = k))
    { key := k
      total_minutes := (grp.map PlayRecord.minutes_played).sum
      play_count := grp.length })

/-- Descending order on total_minutes, the ORDER BY relation of both query
shapes. -/
def aggGE (a b : AggRow) : Prop :=
  b.total_minutes ≤ a.total_minutes

instance : DecidableRel aggGE := fun a b =>
  inferInstanceAs (Decidable (b.total_minutes ≤ a.total_minutes))

instance : IsTotal AggRow aggGE :=
  ⟨fun a b => le_total b.total_minutes a.total_minutes⟩

instance : IsTrans AggRow aggGE :=
  ⟨fun _ _ _ hab hbc => le_trans hbc hab⟩

/-- Partition key of a group for the ranked shape: PARTITION BY uses the
first requested column, whose value is the head of the group key. -/
def primaryOf (g : AggRow) : DimVal :=
  g.key.headD (.s "")

/-- First row of maximal total_minutes in a list: the group that
ROW_NUMBER() OVER (ORDER BY SUM(minutes_played) DESC) assigns rank 1,
with ties resolved by the store model's stable order. -/
def pickMaxTotal : List AggRow → AggRow
  | [] => default
  | a :: rest =>
    rest.foldl (fun best g => if best.total_minutes < g.total_minutes then g else best) a

/-- Semantics of the WHERE rn = 1 projection of the ranked query: for each
distinct primary value, in first-appearance order, the group of maximal
total_minutes within that partition. -/
def bestPerPrimary (groups : List AggRow) : List AggRow :=
  (firstDedup (groups.map primaryOf)).map (fun p =>
    pickMaxTotal (groups.filter (fun g => decide (primaryOf g = p))))

/-- Store-model semantics of executing the plan's statement on a table:
filter by the WHERE clause, group and aggregate, apply the ranked
projection when the ranked shape was generated, then ORDER BY
total_minutes DESC (stable insertion sort) and LIMIT. -/
def executePlan (plan : QueryPlan) (table : List PlayRecord) : List AggRow :=
  let rows := table.filter (rowMatches plan.artistF plan.yearF)
  let groups := groupAgg plan.columns rows
  if plan.ranked then
    (List.insertionSort aggGE (bestPerPrimary groups)).take plan.limit
  else
    (List.insertionSort aggGE groups).take plan.limit

/-- Observable outcome of one endpoint invocation: how many store
connections were opened and closed, and the result or error. -/
structure ExecOutcome where
  openedConnections : Nat
  closedConnections : Nat
  result : Except PyError (List AggRow)
deriving Repr

/-- The executor block of aggregate_data (lines 236-241): open a
connection, run the statement, fetch all rows, close cursor and
connection.  The block has no try/finally or context manager, so when
cursor.execute raises a store error the two close calls are skipped and
the exception propagates with the connection still open; on success the
full row set is produced and the connection is closed. -/
def runExecutor (plan : QueryPlan) (table : List PlayRecord)
    (storeFails : Bool) : ExecOutcome :=
  if storeFails then
    { openedConnections := 1, closedConnections := 0, result := .error .storeError }
  else
    { openedConnections := 1, closedConnections := 1,
      result := .ok (executePlan plan table) }

/-- The whole endpoint: the build phase runs first and any of its errors
escapes before get_db_connection is called (line 236 comes after all
validation and query assembly), so no connection is ever opened on a
build failure. -/
def aggregate_endpoint (req : AggregateRequest) (table : List PlayRecord)
    (storeFails : Bool) : ExecOutcome :=
  match buildPlan req with
  | .error e => { openedConnections := 0, closedConnections := 0, result := .error e }
  | .ok plan => runExecutor plan table storeFails

/-- Functional result of aggregate_data on a healthy store. -/
def aggregate_data (req : AggregateRequest) (table : List PlayRecord) :
    Except PyError (List AggRow) :=
  (aggregate_endpoint req table false).result

/-- The plan a request builds, defaulting on build failure; used to name
concrete plans in witness statements. -/
def planOf (req : AggregateRequest) : QueryPlan :=
  match buildPlan req with
  | .ok p => p
  | .error _ => default

/-- Number of percent characters in a string; since every percent sign the
builder ever writes belongs to a %s placeholder, this counts parameter
placeholders in generated statement text. -/
def countPercent (s : String) : Nat :=
  s.data.count '%'

/-! Helper lemmas shared by the claim theorems. -/

lemma pySplit_ne_nil (sep : Char) (cs : List Char) : pySplit sep cs ≠ [] := by
  cases cs with
  | nil => simp [pySplit]
  | cons c rest =>
    simp only [pySplit]
    cases h : pySplit sep rest with
    | nil => simp
    | cons piece more => by_cases hc : c = sep <;> simp [hc]

lemma csvTokens_ne_nil (s : String) : csvTokens s ≠ [] := by
  unfold csvTokens pySplitStr
  intro h
  exact pySplit_ne_nil ',' s.data
    (by simpa using List.map_eq_nil_iff.mp (List.map_eq_nil_iff.mp h))

lemma mem_of_mem_foldlDedup {α : Type} [DecidableEq α] (l acc : List α) (x : α)
    (h : x ∈ l.foldl (fun acc a => if a ∈ acc then acc else acc ++ [a]) acc) :
    x ∈ acc ∨ x ∈ l := by
  induction l generalizing acc with
  | nil => exact Or.inl (by simpa using h)
  | cons a t ih =>
    simp only [List.foldl_cons] at h
    rcases ih _ h with h' | h'
    · by_cases ha : a ∈ acc
      · simp [ha] at h'
        exact Or.inl h'
      · simp [ha, List.mem_append] at h'
        rcases h' with h'' | h''
        · exact Or.inl h''
        · exact Or.inr (by simp [h''])
    · exact Or.inr (List.mem_cons_of_mem _ h')

lemma nodup_foldlDedup {α : Type} [DecidableEq α] (l acc : List α) (hacc : acc.Nodup) :
    (l.foldl (fun acc a => if a ∈ acc then acc else acc ++ [a]) acc).Nodup := by
  induction l generalizing acc with
  | nil => exact hacc
  | cons a t ih =>
    simp only [List.foldl_cons]
    apply ih
    by_cases ha : a ∈ acc
    · simpa [ha]
    · simp [ha, List.nodup_append, hacc]

lemma firstDedup_nodup {α : Type} [DecidableEq α] (l : List α) : (firstDedup l).Nodup :=
  nodup_foldlDedup l [] List.nodup_nil

lemma mem_of_mem_firstDedup {α : Type} [DecidableEq α] (l : List α) (x : α)
    (h : x ∈ firstDedup l) : x ∈ l := by
  rcases mem_of_mem_foldlDedup l [] x h with h' | h'
  · simp at h'
  · exact h'

lemma map_eq_self_of_mem {α : Type} (l : List α) (f : α → α) (h : ∀ a ∈ l, f a = a) :
    l.map f = l := by
  induction l with
  | nil => rfl
  | cons a t ih =>
    simp only [List.map_cons, h a (List.mem_cons_self a t)]
    rw [ih (fun x hx => h x (List.mem_cons_of_mem _ hx))]

lemma foldlMax_mem (rest : List AggRow) (a : AggRow) :
    rest.foldl (fun best g => if best.total_minutes < g.total_minutes then g else best) a = a ∨
    rest.foldl (fun best g => if best.total_minutes < g.total_minutes then g else best) a ∈ rest := by
  induction rest generalizing a with
  | nil => exact Or.inl rfl
  | cons g t ih =>
    simp only [List.foldl_cons]
    rcases ih (if a.total_minutes < g.total_minutes then g else a) with h | h
    · rw [h]
      by_cases hlt : a.total_minutes < g.total_minutes
      · exact Or.inr (by simp [hlt])
      · exact Or.inl (by simp [hlt])
    · exact Or.inr (List.mem_cons_of_mem _ h)

lemma foldlMax_ge (rest : List AggRow) (a : AggRow) :
    a.total_minutes ≤
      (rest.foldl (fun best g => if best.total_minutes < g.total_minutes then g else best) a).total_minutes ∧
    ∀ g ∈ rest, g.total_minutes ≤
      (rest.foldl (fun best g => if best.total_minutes < g.total_minutes then g else best) a).total_minutes := by
  induction rest generalizing a with
  | nil => exact ⟨le_refl _, by simp⟩
  | cons g t ih =>
    simp only [List.foldl_cons]
    obtain ⟨h1, h2⟩ := ih (if a.total_minutes < g.total_minutes then g else a)
    have hstep_a : a.total_minutes ≤
        (if a.total_minutes < g.total_minutes then g else a).total_minutes := by
      by_cases hlt : a.total_minutes < g.total_minutes
      · simpa [hlt] using le_of_lt hlt
      · simp [hlt]
    have hstep_g : g.total_minutes ≤
        (if a.total_minutes < g.total_minutes then g else a).total_minutes := by
      by_cases hlt : a.total_minutes < g.total_minutes
      · simp [hlt]
      · simpa [hlt] using le_of_not_lt hlt
    refine ⟨le_trans hstep_a h1, ?_⟩
    intro x hx
    rcases List.mem_cons.mp hx with rfl | hx'
    · exact le_trans hstep_g h1
    · exact h2 x hx'

lemma pickMaxTotal_mem (l : List AggRow) (h : l ≠ []) : pickMaxTotal l ∈ l := by
  cases l with
  | nil => exact absurd rfl h
  | cons a rest =>
    show rest.foldl (fun best g => if best.total_minutes < g.total_minutes then g else best) a ∈ a :: rest
    rcases foldlMax_mem rest a with h' | h'
    · rw [h']; exact List.mem_cons_self a rest
    · exact List.mem_cons_of_mem _ h'

lemma pickMaxTotal_ge (l : List AggRow) (g : AggRow) (hg : g ∈ l) :
    g.total_minutes ≤ (pickMaxTotal l).total_minutes := by
  cases l with
  | nil => simp at hg
  | cons a rest =>
    show g.total_minutes ≤
      (rest.foldl (fun best g => if best.total_minutes < g.total_minutes then g else best) a).total_minutes
    obtain ⟨h1, h2⟩ := foldlMax_ge rest a
    rcases List.mem_cons.mp hg with rfl | hg'
    · exact h1
    · exact h2 g hg'

lemma filter_primary_ne_nil (groups : List AggRow) (p : DimVal)
    (h : p ∈ firstDedup (groups.map primaryOf)) :
    groups.filter (fun g => decide (primaryOf g = p)) ≠ [] := by
  obtain ⟨g, hg, hgp⟩ := List.mem_map.mp (mem_of_mem_firstDedup _ _ h)
  intro hnil
  have : g ∈ groups.filter (fun g => decide (primaryOf g = p)) :=
    List.mem_filter.mpr ⟨hg, by simp [hgp]⟩
  rw [hnil] at this
  simp at this

lemma bestPerPrimary_entry (groups : List AggRow) (p : DimVal)
    (h : p ∈ firstDedup (groups.map primaryOf)) :
    primaryOf (pickMaxTotal (groups.filter (fun g => decide (primaryOf g = p)))) = p ∧
    pickMaxTotal (groups.filter (fun g => decide (primaryOf g = p))) ∈ groups := by
  have hmem := pickMaxTotal_mem _ (filter_primary_ne_nil groups p h)
  obtain ⟨hg, hp⟩ := List.mem_filter.mp hmem
  exact ⟨by simpa using hp, hg⟩

lemma bestPerPrimary_map_primary (groups : List AggRow) :
    (bestPerPrimary groups).map primaryOf = firstDedup (groups.map primaryOf) := by
  unfold bestPerPrimary
  rw [List.map_map]
  exact map_eq_self_of_mem _ _ (fun p hp => (bestPerPrimary_entry groups p hp).1)

lemma bestPerPrimary_nodup_primary (groups : List AggRow) :
    ((bestPerPrimary groups).map primaryOf).Nodup := by
  rw [bestPerPrimary_map_primary]
  exact firstDedup_nodup _

lemma bestPerPrimary_mem (groups : List AggRow) (x : AggRow)
    (h : x ∈ bestPerPrimary groups) : x ∈ groups := by
  unfold bestPerPrimary at h
  obtain ⟨p, hp, rfl⟩ := List.mem_map.mp h
  exact (bestPerPrimary_entry groups p hp).2

lemma bestPerPrimary_max (groups : List AggRow) (x : AggRow)
    (h : x ∈ bestPerPrimary groups) :
    ∀ g ∈ groups, primaryOf g = primaryOf x → g.total_minutes ≤ x.total_minutes := by
  unfold bestPerPrimary at h
  obtain ⟨p, hp, rfl⟩ := List.mem_map.mp h
  intro g hg hgp
  rw [(bestPerPrimary_entry groups p hp).1] at hgp
  exact pickMaxTotal_ge _ g (List.mem_filter.mpr ⟨hg, by simp [hgp]⟩)

lemma groupAgg_mem (cols : List String) (rows : List PlayRecord) (x : AggRow)
    (h : x ∈ groupAgg cols rows) :
    x.key ∈ rows.map (groupKey cols) ∧
    x.total_minutes =
      ((rows.filter (fun r => decide (groupKey cols r = x.key))).map
        PlayRecord.minutes_played).sum ∧
    x.play_count =
      (rows.filter (fun r => decide (groupKey cols r = x.key))).length := by
  unfold groupAgg at h
  obtain ⟨k, hk, hx⟩ := List.mem_map.mp h
  subst hx
  exact ⟨mem_of_mem_firstDedup _ _ hk, rfl, rfl⟩

lemma groupAgg_map_key (cols : List String) (rows : List PlayRecord) :
    (groupAgg cols rows).map AggRow.key = firstDedup (rows.map (groupKey cols)) := by
  unfold groupAgg
  rw [List.map_map]
  exact map_eq_self_of_mem _ _ (fun k _ => rfl)

lemma sortTake_sorted (l : List AggRow) (n : Nat) :
    List.Sorted aggGE ((List.insertionSort aggGE l).take n) :=
  List.Pairwise.sublist (List.take_sublist _ _) (List.sorted_insertionSort aggGE l)

lemma sortTake_length (l : List AggRow) (n : Nat) :
    ((List.insertionSort aggGE l).take n).length ≤ n := by
  rw [List.length_take]
  exact min_le_left _ _

lemma sortTake_mem (l : List AggRow) (n : Nat) (x : AggRow)
    (h : x ∈ (List.insertionSort aggGE l).take n) : x ∈ l :=
  (List.perm_insertionSort aggGE l).mem_iff.mp (List.mem_of_mem_take h)

lemma sortTake_map_nodup {β : Type} (l : List AggRow) (n : Nat) (f : AggRow → β)
    (h : (l.map f).Nodup) : (((List.insertionSort aggGE l).take n).map f).Nodup := by
  have hperm : List.Perm ((List.insertionSort aggGE l).map f) (l.map f) :=
    (List.perm_insertionSort aggGE l).map f
  have h2 : ((List.insertionSort aggGE l).map f).Nodup := hperm.nodup_iff.mpr h
  rw [List.map_take]
  exact List.Nodup.sublist (List.take_sublist _ _) h2

lemma buildPlan_ok_inv (req : AggregateRequest) (plan : QueryPlan)
    (h : buildPlan req = .ok plan) :
    (csvTokens req.group_by).find? (fun c => decide (c ∉ ALLOWED_GROUP_BY)) = none ∧
    ∃ yearF, yearFilterRes req.filter_years = .ok yearF ∧
      plan = mkPlan (csvTokens req.group_by) (artistFilterOf req.filter_artists)
        yearF req.limit req.top_per_group := by
  unfold buildPlan buildPlanCore at h
  cases hf : (csvTokens req.group_by).find? (fun c => decide (c ∉ ALLOWED_GROUP_BY)) with
  | some c => rw [hf] at h; simp at h
  | none =>
    rw [hf] at h
    cases hy : yearFilterRes req.filter_years with
    | error v => rw [hy] at h; simp at h
    | ok yearF =>
      rw [hy] at h
      simp only [Except.ok.injEq] at h
      exact ⟨rfl, yearF, rfl, h.symm⟩

lemma buildPlan_columns_valid (req : AggregateRequest) (plan : QueryPlan)
    (h : buildPlan req = .ok plan) :
    ∀ c ∈ plan.columns, c ∈ ALLOWED_GROUP_BY := by
  obtain ⟨hf, yearF, _, hplan⟩ := buildPlan_ok_inv req plan h
  intro c hc
  have : c ∈ csvTokens req.group_by := by
    rw [hplan] at hc
    exact hc
  have := List.find?_eq_none.mp hf c this
  simpa using this

lemma mkPlan_columns (cols : List String) (aF : Option (List String))
    (yF : Option (List Int)) (lim : Nat) (tpg : Bool) :
    (mkPlan cols aF yF lim tpg).columns = cols := rfl

lemma mkPlan_artistF (cols : List String) (aF : Option (List String))
    (yF : Option (List Int)) (lim : Nat) (tpg : Bool) :
    (mkPlan cols aF yF lim tpg).artistF = aF := rfl

lemma mkPlan_yearF (cols : List String) (aF : Option (List String))
    (yF : Option (List Int)) (lim : Nat) (tpg : Bool) :
    (mkPlan cols aF yF lim tpg).yearF = yF := rfl

lemma mkPlan_limit (cols : List String) (aF : Option (List String))
    (yF : Option (List Int)) (lim : Nat) (tpg : Bool) :
    (mkPlan cols aF yF lim tpg).limit = lim := rfl

lemma mkPlan_ranked (cols : List String) (aF : Option (List String))
    (yF : Option (List Int)) (lim : Nat) (tpg : Bool) :
    (mkPlan cols aF yF lim tpg).ranked = (tpg && decide (1 < cols.length)) := rfl

lemma mkPlan_params (cols : List String) (aF : Option (List String))
    (yF : Option (List Int)) (lim : Nat) (tpg : Bool) :
    (mkPlan cols aF yF lim tpg).params =
      (aF.getD []).map BindValue.s ++ (yF.getD []).map BindValue.i ++
        [BindValue.i (lim : Int)] := by
  cases aF <;> cases yF <;> simp [mkPlan]

lemma mkPlan_query (cols : List String) (aF : Option (List String))
    (yF : Option (List Int)) (lim : Nat) (tpg : Bool) :
    (mkPlan cols aF yF lim tpg).query =
      (let artistClauses : List String :=
        match aF with
        | some l => ["artist_name IN (" ++ placeholders l.length ++ ")"]
        | none => []
      let yearClauses : List String :=
        match yF with
        | some l => ["year IN (" ++ placeholders l.length ++ ")"]
        | none => []
      let where_clauses := artistClauses ++ yearClauses
      let where_sql := if where_clauses.isEmpty then "1=1" else pyJoin " AND " where_clauses
      if tpg && decide (1 < cols.length) then
        rankedQueryText (pyJoin ", " cols) (cols.headD "") where_sql (pyJoin ", " cols)
      else
        plainQueryText (pyJoin ", " cols) where_sql (pyJoin ", " cols)) := by
  cases aF <;> cases yF <;> rfl

lemma aggregate_endpoint_ok (req : AggregateRequest) (plan : QueryPlan)
    (table : List PlayRecord) (h : buildPlan req = .ok plan) (b : Bool) :
    aggregate_endpoint req table b = runExecutor plan table b := by
  unfold aggregate_endpoint
  rw [h]

lemma aggregate_data_ok (req : AggregateRequest) (plan : QueryPlan)
    (table : List PlayRecord) (h : buildPlan req = .ok plan) :
    aggregate_data req table = .ok (executePlan plan table) := by
  unfold aggregate_data
  rw [aggregate_endpoint_ok req plan table h false]
  rfl

lemma aggregate_endpoint_buildError (req : AggregateRequest) (e : PyError)
    (h : buildPlan req = .error e) (table : List PlayRecord) (b : Bool) :
    aggregate_endpoint req table b =
      { openedConnections := 0, closedConnections := 0, result := .error e } := by
  unfold aggregate_endpoint
  rw [h]

lemma countPercent_append (a b : String) :
    countPercent (a ++ b) = countPercent a + countPercent b := by
  simp [countPercent, String.data_append, List.count_append]

lemma pyJoin_cons_cons (sep x y : String) (ys : List String) :
    pyJoin sep (x :: y :: ys) = x ++ sep ++ pyJoin sep (y :: ys) := rfl

lemma countPercent_pyJoin (sep : String) (hsep : countPercent sep = 0)
    (l : List String) : countPercent (pyJoin sep l) = (l.map countPercent).sum := by
  induction l with
  | nil => rfl
  | cons x xs ih =>
    cases xs with
    | nil => simp [pyJoin]
    | cons y ys =>
      rw [pyJoin_cons_cons, countPercent_append, countPercent_append, hsep, ih]
      simp

lemma countPercent_placeholders (n : Nat) : countPercent (placeholders n) = n := by
  induction n with
  | zero => rfl
  | succ m ih =>
    cases m with
    | zero => rfl
    | succ k =>
      have h : placeholders (k + 2) = "%s" ++ ", " ++ placeholders (k + 1) := by
        show pyJoin ", " (List.replicate (k + 2) "%s") = _
        rw [List.replicate_succ, List.replicate_succ, pyJoin_cons_cons,
          ← List.replicate_succ]
        rfl
      have h1 : countPercent "%s" = 1 := rfl
      have h2 : countPercent ", " = 0 := rfl
      rw [h, countPercent_append, countPercent_append, ih, h1, h2]
      omega

lemma countPercent_allowed (c : String) (h : c ∈ ALLOWED_GROUP_BY) :
    countPercent c = 0 := by
  simp only [ALLOWED_GROUP_BY, List.mem_cons, List.not_mem_nil, or_false] at h
  rcases h with rfl | rfl | rfl | rfl | rfl | rfl | rfl <;> rfl

lemma countPercent_selectList (cols : List String)
    (h : ∀ c ∈ cols, c ∈ ALLOWED_GROUP_BY) : countPercent (pyJoin ", " cols) = 0 := by
  rw [countPercent_pyJoin ", " rfl]
  apply List.sum_eq_zero
  intro x hx
  obtain ⟨c, hc, rfl⟩ := List.mem_map.mp hx
  exact countPercent_allowed c (h c hc)

lemma countPercent_headD (cols : List String)
    (h : ∀ c ∈ cols, c ∈ ALLOWED_GROUP_BY) : countPercent (cols.headD "") = 0 := by
  cases cols with
  | nil => rfl
  | cons c t => exact countPercent_allowed c (h c (List.mem_cons_self c t))

lemma countPercent_headOptGetD (cols : List String)
    (h : ∀ c ∈ cols, c ∈ ALLOWED_GROUP_BY) : countPercent (cols.head?.getD "") = 0 := by
  cases cols with
  | nil => rfl
  | cons c t => exact countPercent_allowed c (h c (List.mem_cons_self c t))

lemma exists_invalid_error (req : AggregateRequest) (name : String)
    (h1 : name ∈ csvTokens req.group_by) (h2 : name ∉ ALLOWED_GROUP_BY) :
    ∃ c, c ∈ csvTokens req.group_by ∧ c ∉ ALLOWED_GROUP_BY ∧
      ∀ (table : List PlayRecord) (b : Bool),
        aggregate_endpoint req table b =
          { openedConnections := 0, closedConnections := 0,
            result := .error (.httpException 400 ("Invalid column: " ++ c)) } := by
  have hsome : ((csvTokens req.group_by).find?
      (fun c => decide (c ∉ ALLOWED_GROUP_BY))).isSome := by
    rw [List.find?_isSome]
    exact ⟨name, h1, by simpa using h2⟩
  obtain ⟨c, hc⟩ := Option.isSome_iff_exists.mp hsome
  have hcmem := List.mem_of_find?_eq_some hc
  have hcprop := List.find?_some hc
  have herr : buildPlan req = .error (.httpException 400 ("Invalid column: " ++ c)) := by
    unfold buildPlan buildPlanCore
    rw [hc]
  exact ⟨c, hcmem, by simpa using hcprop,
    fun table b => aggregate_endpoint_buildError req _ herr table b⟩

lemma intListOf_error_of_bad (ts : List String) (h : ∃ t ∈ ts, pyInt t = none) :
    ∃ v, v ∈ ts ∧ pyInt v = none ∧ intListOf ts = .error v := by
  induction ts with
  | nil => simp at h
  | cons t ts ih =>
    cases hpt : pyInt t with
    | none =>
      exact ⟨t, List.mem_cons_self t ts, hpt, by simp [intListOf, hpt]⟩
    | some n =>
      obtain ⟨u, hu, hun⟩ := h
      rcases List.mem_cons.mp hu with rfl | hu'
      · rw [hpt] at hun
        simp at hun
      · obtain ⟨v, hv, hvn, hverr⟩ := ih ⟨u, hu', hun⟩
        exact ⟨v, List.mem_cons_of_mem _ hv, hvn,
          by simp [intListOf, hpt, hverr, Except.map]⟩

/-! Concrete fixtures used in witness and counterexample statements. -/

/-- Request with a group_by name outside the allow-list. -/
def reqBadCol : AggregateRequest :=
  { group_by := "playlist", filter_artists := none, filter_years := none,
    limit := 50, top_per_group := false }

/-- The spec's plain-mode example request: two dimensions, no filters,
limit 2. -/
def reqExample : AggregateRequest :=
  { group_by := "artist_name,year", filter_artists := none, filter_years := none,
    limit := 2, top_per_group := false }

/-- A ranked-mode request over two dimensions. -/
def reqRanked : AggregateRequest :=
  { group_by := "artist_name,track_name", filter_artists := none, filter_years := none,
    limit := 50, top_per_group := true }

/-- A request with both filters present. -/
def reqFilters : AggregateRequest :=
  { group_by := "artist_name", filter_artists := some "A,B", filter_years := some "2020",
    limit := 50, top_per_group := false }

/-- A request whose year filter holds a non-integer literal. -/
def reqBadYear : AggregateRequest :=
  { group_by := "year", filter_artists := none, filter_years := some "abc",
    limit := 50, top_per_group := false }

/-- The whitespace-padded form of the spec's equivalence example. -/
def reqSpaces : AggregateRequest :=
  { group_by := " artist_name , year ", filter_artists := some " A , B ",
    filter_years := none, limit := 50, top_per_group := false }

/-- The canonical form of the spec's equivalence example. -/
def reqCanon : AggregateRequest :=
  { group_by := "artist_name,year", filter_artists := some "A,B",
    filter_years := none, limit := 50, top_per_group := false }

/-- A field-for-field copy of reqCanon, for the determinism witness. -/
def reqCanonCopy : AggregateRequest :=
  { group_by := "artist_name,year", filter_artists := some "A,B",
    filter_years := none, limit := 50, top_per_group := false }

/-- A group_by string with a trailing comma, yielding an empty token. -/
def reqTrailingComma : AggregateRequest :=
  { group_by := "artist_name,", filter_artists := none, filter_years := none,
    limit := 50, top_per_group := false }

/-- The spec example's three play records. -/
def sampleTable : List PlayRecord :=
  [{ artist_name := "A", track_name := "t1", album_name := "al", year := 2020,
     month := 1, day_of_week := "Mon", hour := 0, minutes_played := 10 },
   { artist_name := "A", track_name := "t2", album_name := "al", year := 2021,
     month := 1, day_of_week := "Mon", hour := 0, minutes_played := 5 },
   { artist_name := "B", track_name := "t3", album_name := "al", year := 2020,
     month := 1, day_of_week := "Mon", hour := 0, minutes_played := 20 }]

/-! Claim theorems. -/

/-- C1: a group_by name outside the fixed dimension set makes the build
fail with the 400 Invalid column HTTPException naming the offending
column, before any query text is assembled and before any store
connection is opened: the outcome is the same for every table and store
behaviour, with zero connections opened. -/
theorem invalid_dimension_rejected_before_store (req : AggregateRequest)
    (name : String) (h1 : name ∈ csvTokens req.group_by)
    (h2 : name ∉ ALLOWED_GROUP_BY) :
    ∃ c, c ∈ csvTokens req.group_by ∧ c ∉ ALLOWED_GROUP_BY ∧
      isClientError (.httpException 400 ("Invalid column: " ++ c)) = true ∧
      ∀ (table : List PlayRecord) (b : Bool),
        aggregate_endpoint req table b =
          { openedConnections := 0, closedConnections := 0,
            result := .error (.httpException 400 ("Invalid column: " ++ c)) } := by
  obtain ⟨c, hcmem, hcnot, hout⟩ := exists_invalid_error req name h1 h2
  exact ⟨c, hcmem, hcnot, rfl, hout⟩

/-- Witness for C1 at the concrete request with group_by playlist. -/
theorem invalid_dimension_rejected_before_store_witness :
    "playlist" ∈ csvTokens reqBadCol.group_by ∧ "playlist" ∉ ALLOWED_GROUP_BY ∧
    (∃ c, c ∈ csvTokens reqBadCol.group_by ∧ c ∉ ALLOWED_GROUP_BY ∧
      isClientError (.httpException 400 ("Invalid column: " ++ c)) = true ∧
      ∀ (table : List PlayRecord) (b : Bool),
        aggregate_endpoint reqBadCol table b =
          { openedConnections := 0, closedConnections := 0,
            result := .error (.httpException 400 ("Invalid column: " ++ c)) }) :=
  ⟨by decide, by decide,
    invalid_dimension_rejected_before_store reqBadCol "playlist" (by decide) (by decide)⟩

/-- C5 counterexample: with group_by year and filter_years abc the build
fails with an uncaught ValueError from int(), not a 400 HTTPException, so
the outcome is a server error, contradicting the claimed
InvalidFilterValue client error. -/
theorem bad_year_counterexample :
    buildPlan reqBadYear = .error (.valueError "abc") ∧
    aggregate_endpoint reqBadYear [] false =
      { openedConnections := 0, closedConnections := 0,
        result := .error (.valueError "abc") } ∧
    isClientError (.valueError "abc") = false :=
  ⟨rfl, rfl, rfl⟩

/-- C5 amended: a year filter value rejected by int() makes the build fail
before any store interaction (no connection opened, identical outcome for
every table), but the failure is an uncaught ValueError carrying only the
raw literal — surfaced by FastAPI as a server error, not as a client
error, and naming no dimension. -/
theorem bad_year_value_fails_before_store (req : AggregateRequest)
    (hcols : ∀ c ∈ csvTokens req.group_by, c ∈ ALLOWED_GROUP_BY)
    (htruthy : truthy req.filter_years = true)
    (hbad : ∃ t ∈ csvTokens (req.filter_years.getD ""), pyInt t = none) :
    ∃ v, v ∈ csvTokens (req.filter_years.getD "") ∧ pyInt v = none ∧
      isClientError (.valueError v) = false ∧
      ∀ (table : List PlayRecord) (b : Bool),
        aggregate_endpoint req table b =
          { openedConnections := 0, closedConnections := 0,
            result := .error (.valueError v) } := by
  obtain ⟨v, hv, hvn, hverr⟩ := intListOf_error_of_bad _ hbad
  have hfind : (csvTokens req.group_by).find?
      (fun c => decide (c ∉ ALLOWED_GROUP_BY)) = none := by
    rw [List.find?_eq_none]
    intro x hx
    simpa using hcols x hx
  have hyear : yearFilterRes req.filter_years = .error v := by
    unfold yearFilterRes
    rw [htruthy, hverr]
    rfl
  have herr : buildPlan req = .error (.valueError v) := by
    unfold buildPlan buildPlanCore
    rw [hfind, hyear]
  exact ⟨v, hv, hvn, rfl,
    fun table b => aggregate_endpoint_buildError req _ herr table b⟩

/-- Witness for the amended C5 at the concrete bad-year request. -/
theorem bad_year_value_fails_before_store_witness :
    (∀ c ∈ csvTokens reqBadYear.group_by, c ∈ ALLOWED_GROUP_BY) ∧
    truthy reqBadYear.filter_years = true ∧
    (∃ t ∈ csvTokens (reqBadYear.filter_years.getD ""), pyInt t = none) ∧
    (∃ v, v ∈ csvTokens (reqBadYear.filter_years.getD "") ∧ pyInt v = none ∧
      isClientError (.valueError v) = false ∧
      ∀ (table : List PlayRecord) (b : Bool),
        aggregate_endpoint reqBadYear table b =
          { openedConnections := 0, closedConnections := 0,
            result := .error (.valueError v) }) :=
  ⟨by decide, by decide, ⟨"abc", by decide, by decide⟩,
    bad_year_value_fails_before_store reqBadYear (by decide) (by decide)
      ⟨"abc", by decide, by decide⟩⟩

/-- C6 counterexample: when the statement execution raises a store error,
the executor block (lines 236-241, which has no try/finally) propagates
the exception without closing the connection it opened: one connection
opened, zero closed — so the connection is not released on every exit
path. -/
theorem executor_leak_counterexample :
    (runExecutor (planOf reqExample) [] true).openedConnections = 1 ∧
    (runExecutor (planOf reqExample) [] true).closedConnections = 0 ∧
    (runExecutor (planOf reqExample) [] true).result = .error .storeError :=
  ⟨rfl, rfl, rfl⟩

/-- C6 amended: the executor acquires exactly one store connection per
execution and releases it on the success path only; when statement
execution raises, the error propagates with the connection left open. No
partial result set is ever returned: the outcome is the full row sequence
on success and an error otherwise. -/
theorem executor_one_connection_release_on_success (req : AggregateRequest)
    (plan : QueryPlan) (table : List PlayRecord) (b : Bool)
    (h : buildPlan req = .ok plan) :
    (aggregate_endpoint req table b).openedConnections = 1 ∧
    (aggregate_endpoint req table b).closedConnections = (if b then 0 else 1) ∧
    (aggregate_endpoint req table b).result =
      (if b then .error .storeError else .ok (executePlan plan table)) := by
  rw [aggregate_endpoint_ok req plan table h b]
  cases b <;> exact ⟨rfl, rfl, rfl⟩

/-- Witness for the amended C6 at a concrete request with a failing
store. -/
theorem executor_one_connection_release_on_success_witness :
    buildPlan reqExample = .ok (planOf reqExample) ∧
    ((aggregate_endpoint reqExample sampleTable true).openedConnections = 1 ∧
     (aggregate_endpoint reqExample sampleTable true).closedConnections =
       (if true then 0 else 1) ∧
     (aggregate_endpoint reqExample sampleTable true).result =
       (if true then .error .storeError
        else .ok (executePlan (planOf reqExample) sampleTable))) :=
  ⟨rfl, executor_one_connection_release_on_success reqExample (planOf reqExample)
    sampleTable true rfl⟩

/-- C7: the ordered bind-value list of every successfully built plan is
the artist filter values (as strings), then the year filter values (as
integers) — filter values in filter-declaration order — followed by the
limit as the final bound value, and this very list is what the executor
hands to the store. -/
theorem bind_order_filters_then_limit (req : AggregateRequest) (plan : QueryPlan)
    (h : buildPlan req = .ok plan) :
    plan.params = (plan.artistF.getD []).map BindValue.s ++
      (plan.yearF.getD []).map BindValue.i ++ [BindValue.i (plan.limit : Int)] ∧
    plan.params.getLast? = some (BindValue.i (plan.limit : Int)) ∧
    plan.limit = req.limit := by
  obtain ⟨_, yearF, _, hplan⟩ := buildPlan_ok_inv req plan h
  subst hplan
  refine ⟨?_, ?_, rfl⟩
  · simp only [mkPlan_params, mkPlan_artistF, mkPlan_yearF, mkPlan_limit]
  · simp only [mkPlan_params, mkPlan_limit]
    exact List.getLast?_concat _

/-- Witness for C7 at a concrete request with both filters. -/
theorem bind_order_filters_then_limit_witness :
    buildPlan reqFilters = .ok (planOf reqFilters) ∧
    ((planOf reqFilters).params = ((planOf reqFilters).artistF.getD []).map BindValue.s ++
      ((planOf reqFilters).yearF.getD []).map BindValue.i ++
        [BindValue.i ((planOf reqFilters).limit : Int)] ∧
     (planOf reqFilters).params.getLast? =
       some (BindValue.i ((planOf reqFilters).limit : Int)) ∧
     (planOf reqFilters).limit = reqFilters.limit) :=
  ⟨rfl, bind_order_filters_then_limit reqFilters (planOf reqFilters) rfl⟩

/-- C8: plan building is deterministic and idempotent — two requests that
agree on group_by, both filters, the limit and the ranking flag build the
same plan, hence identical statement text and identical ordered bind
values. -/
theorem build_deterministic (req₁ req₂ : AggregateRequest)
    (hg : req₁.group_by = req₂.group_by)
    (ha : req₁.filter_artists = req₂.filter_artists)
    (hy : req₁.filter_years = req₂.filter_years)
    (hl : req₁.limit = req₂.limit)
    (ht : req₁.top_per_group = req₂.top_per_group) :
    buildPlan req₁ = buildPlan req₂ := by
  cases req₁
  cases req₂
  simp_all

/-- Witness for C8 on two field-for-field identical requests. -/
theorem build_deterministic_witness :
    reqCanon.group_by = reqCanonCopy.group_by ∧
    buildPlan reqCanon = buildPlan reqCanonCopy :=
  ⟨rfl, build_deterministic reqCanon reqCanonCopy rfl rfl rfl rfl rfl⟩

/-- C9: the public interface is whitespace-insensitive — two requests
whose group_by strings split and strip to the same tokens and whose
filter strings parse to the same filter values (with the same limit and
flag) build identical plans, because every token is stripped before
validation and binding. -/
theorem whitespace_insensitive (req₁ req₂ : AggregateRequest)
    (hg : csvTokens req₁.group_by = csvTokens req₂.group_by)
    (ha : artistFilterOf req₁.filter_artists = artistFilterOf req₂.filter_artists)
    (hy : yearFilterRes req₁.filter_years = yearFilterRes req₂.filter_years)
    (hl : req₁.limit = req₂.limit)
    (ht : req₁.top_per_group = req₂.top_per_group) :
    buildPlan req₁ = buildPlan req₂ := by
  unfold buildPlan
  rw [hg, ha, hy, hl, ht]

/-- Witness for C9: the padded request with blanks around every token
builds exactly the canonical request's plan, and the value listed as
blank-A-blank is bound as the stripped A. -/
theorem whitespace_insensitive_witness :
    csvTokens reqSpaces.group_by = csvTokens reqCanon.group_by ∧
    artistFilterOf reqSpaces.filter_artists = artistFilterOf reqCanon.filter_artists ∧
    buildPlan reqSpaces = buildPlan reqCanon ∧
    (planOf reqSpaces).params = [BindValue.s "A", BindValue.s "B", BindValue.i 50] :=
  ⟨by decide, by decide,
    whitespace_insensitive reqSpaces reqCanon (by decide) (by decide) rfl rfl rfl,
    by decide⟩

/-- C10: a group_by string that is empty or has an empty segment is
always rejected by the allow-list with the Invalid column client error
(the empty token is not allow-listed), for every table and store
behaviour and with no connection opened; and no successfully built plan
ever has zero grouping columns or an empty-string column. -/
theorem empty_group_by_token_rejected (req : AggregateRequest)
    (h : "" ∈ csvTokens req.group_by) :
    (∃ c, ∀ (table : List PlayRecord) (b : Bool),
        aggregate_endpoint req table b =
          { openedConnections := 0, closedConnections := 0,
            result := .error (.httpException 400 ("Invalid column: " ++ c)) }) ∧
    ∀ (req₂ : AggregateRequest) (plan : QueryPlan), buildPlan req₂ = .ok plan →
      plan.columns ≠ [] ∧ "" ∉ plan.columns := by
  constructor
  · obtain ⟨c, _, _, hout⟩ := exists_invalid_error req "" h (by decide)
    exact ⟨c, hout⟩
  · intro req₂ plan h₂
    have hvalid := buildPlan_columns_valid req₂ plan h₂
    obtain ⟨_, yearF, _, hplan⟩ := buildPlan_ok_inv req₂ plan h₂
    constructor
    · rw [hplan, mkPlan_columns]
      exact csvTokens_ne_nil _
    · intro hmem
      have := hvalid "" hmem
      simp [ALLOWED_GROUP_BY] at this

/-- Witness for C10 at the concrete trailing-comma request. -/
theorem empty_group_by_token_rejected_witness :
    "" ∈ csvTokens reqTrailingComma.group_by ∧
    ((∃ c, ∀ (table : List PlayRecord) (b : Bool),
        aggregate_endpoint reqTrailingComma table b =
          { openedConnections := 0, closedConnections := 0,
            result := .error (.httpException 400 ("Invalid column: " ++ c)) }) ∧
     ∀ (req₂ : AggregateRequest) (plan : QueryPlan), buildPlan req₂ = .ok plan →
       plan.columns ≠ [] ∧ "" ∉ plan.columns) :=
  ⟨by decide, empty_group_by_token_rejected reqTrailingComma (by decide)⟩

lemma countPercent_plainQueryText (sc ws gb : String) :
    countPercent (plainQueryText sc ws gb) =
      countPercent sc + countPercent ws + countPercent gb + 1 := by
  unfold plainQueryText
  repeat rw [countPercent_append]
  have ha : countPercent plainFragA = 0 := rfl
  have hb : countPercent plainFragB = 0 := rfl
  have hc : countPercent plainFragC = 0 := rfl
  have hd : countPercent plainFragD = 1 := rfl
  rw [ha, hb, hc, hd]
  omega

lemma countPercent_rankedQueryText (sc pg ws gb : String) :
    countPercent (rankedQueryText sc pg ws gb) =
      countPercent sc + countPercent sc + countPercent pg + countPercent ws +
        countPercent gb + 1 := by
  unfold rankedQueryText
  repeat rw [countPercent_append]
  have ha : countPercent rankedFragA = 0 := rfl
  have hb : countPercent rankedFragB = 0 := rfl
  have hc : countPercent rankedFragC = 0 := rfl
  have hd : countPercent rankedFragD = 0 := rfl
  have he : countPercent rankedFragE = 0 := rfl
  have hf : countPercent rankedFragF = 1 := rfl
  rw [ha, hb, hc, hd, he, hf]
  omega

lemma countPercent_mkPlan_query (cols : List String) (aF : Option (List String))
    (yF : Option (List Int)) (lim : Nat) (tpg : Bool)
    (hcols : ∀ c ∈ cols, c ∈ ALLOWED_GROUP_BY) :
    countPercent (mkPlan cols aF yF lim tpg).query =
      (aF.getD []).length + (yF.getD []).length + 1 := by
  have hsc := countPercent_selectList cols hcols
  have hhd := countPercent_headD cols hcols
  have hhd' := countPercent_headOptGetD cols hcols
  have h11 : countPercent "1=1" = 0 := rfl
  have hAND : countPercent " AND " = 0 := rfl
  have hart : countPercent "artist_name IN (" = 0 := rfl
  have hyr : countPercent "year IN (" = 0 := rfl
  have hcl : countPercent ")" = 0 := rfl
  rw [mkPlan_query]
  rcases Bool.eq_false_or_eq_true (tpg && decide (1 < cols.length)) with hb | hb <;>
    cases aF <;> cases yF <;>
      simp [hb, pyJoin, countPercent_append, countPercent_placeholders,
        countPercent_plainQueryText, countPercent_rankedQueryText,
        hsc, hhd, hhd', h11, hAND, hart, hyr, hcl]

lemma mkPlan_query_shape (cols : List String) (aF₁ aF₂ : Option (List String))
    (yF₁ yF₂ : Option (List Int)) (lim₁ lim₂ : Nat) (tpg₁ tpg₂ : Bool)
    (ha : aF₁.map List.length = aF₂.map List.length)
    (hy : yF₁.map List.length = yF₂.map List.length)
    (hr : (tpg₁ && decide (1 < cols.length)) = (tpg₂ && decide (1 < cols.length))) :
    (mkPlan cols aF₁ yF₁ lim₁ tpg₁).query = (mkPlan cols aF₂ yF₂ lim₂ tpg₂).query := by
  rw [mkPlan_query, mkPlan_query, hr]
  cases aF₁ <;> cases aF₂ <;> cases yF₁ <;> cases yF₂ <;> simp_all

lemma executePlan_filter_artist (plan : QueryPlan) (l : List String)
    (hA : plan.artistF = some l) (table : List PlayRecord) :
    executePlan plan table =
      executePlan plan (table.filter (fun r => l.contains r.artist_name)) := by
  have hfilter : (table.filter (fun r => l.contains r.artist_name)).filter
      (rowMatches plan.artistF plan.yearF) =
      table.filter (rowMatches plan.artistF plan.yearF) := by
    rw [List.filter_filter]
    apply List.filter_congr
    intro r _
    rw [hA]
    unfold rowMatches
    cases hc : l.contains r.artist_name
    · have hc' : r.artist_name ∉ l := by simpa using hc
      simp [hc, hc']
    · simp [hc]
  unfold executePlan
  rw [hfilter]

/-- C4: every bind value of a built plan has exactly one %s placeholder in
the statement text (the percent count equals the bind-value count, so
values are never interpolated into the text); the text depends only on the
columns, the filter value counts and the mode, not on the values
themselves; the WHERE semantics is the AND of the per-filter IN-list
membership tests, with the empty filter set excluding no row; and an
artist filter A,B makes execution ignore every record whose artist is
neither A nor B. -/
theorem filters_parameterized_and_conjoined (req : AggregateRequest)
    (plan : QueryPlan) (h : buildPlan req = .ok plan) :
    countPercent plan.query = plan.params.length ∧
    (∀ (req₂ : AggregateRequest) (plan₂ : QueryPlan), buildPlan req₂ = .ok plan₂ →
      plan.columns = plan₂.columns →
      plan.artistF.map List.length = plan₂.artistF.map List.length →
      plan.yearF.map List.length = plan₂.yearF.map List.length →
      plan.ranked = plan₂.ranked →
      plan.query = plan₂.query) ∧
    (∀ r : PlayRecord, rowMatches none none r = true) ∧
    (∀ (al : List String) (yl : List Int) (r : PlayRecord),
      rowMatches (some al) (some yl) r =
        (al.contains r.artist_name && yl.contains r.year)) ∧
    (plan.artistF = some ["A", "B"] → ∀ table : List PlayRecord,
      executePlan plan table =
        executePlan plan (table.filter (fun r => ["A", "B"].contains r.artist_name))) := by
  obtain ⟨hfind, yearF, hyres, hplan⟩ := buildPlan_ok_inv req plan h
  have hcols : ∀ c ∈ csvTokens req.group_by, c ∈ ALLOWED_GROUP_BY := by
    intro c hc
    have := List.find?_eq_none.mp hfind c hc
    simpa using this
  refine ⟨?_, ?_, fun r => rfl, fun al yl r => rfl,
    fun hA table => executePlan_filter_artist plan _ hA table⟩
  · rw [hplan, countPercent_mkPlan_query _ _ _ _ _ hcols, mkPlan_params]
    simp
    omega
  · intro req₂ plan₂ h₂ hc ha hy hr
    obtain ⟨hfind₂, yearF₂, hyres₂, hplan₂⟩ := buildPlan_ok_inv req₂ plan₂ h₂
    rw [hplan, hplan₂] at hc ha hy hr ⊢
    rw [mkPlan_columns, mkPlan_columns] at hc
    rw [mkPlan_artistF, mkPlan_artistF] at ha
    rw [mkPlan_yearF, mkPlan_yearF] at hy
    rw [mkPlan_ranked, mkPlan_ranked] at hr
    rw [← hc] at hr ⊢
    exact mkPlan_query_shape _ _ _ _ _ _ _ _ _ ha hy hr

/-- Witness for C4 at a concrete request with artist values A,B and year
value 2020: four bind values, four placeholders. -/
theorem filters_parameterized_and_conjoined_witness :
    buildPlan reqFilters = .ok (planOf reqFilters) ∧
    countPercent (planOf reqFilters).query = (planOf reqFilters).params.length ∧
    countPercent (planOf reqFilters).query = 4 ∧
    (planOf reqFilters).artistF = some ["A", "B"] :=
  ⟨rfl, (filters_parameterized_and_conjoined reqFilters (planOf reqFilters) rfl).1,
    by decide, by decide⟩

/-- C2: in top-per-group mode (selected exactly when the flag is set and
more than one dimension is requested) the plan keeps one row per distinct
primary-dimension value — a row of maximal summed duration within that
primary value's partition — orders the survivors by total_minutes
descending and caps at the limit, so each distinct primary value appears
at most once in the output. -/
theorem top_per_group_unique_primary (req : AggregateRequest) (plan : QueryPlan)
    (table : List PlayRecord) (h : buildPlan req = .ok plan)
    (hmode : plan.ranked = true) :
    aggregate_data req table = .ok (executePlan plan table) ∧
    ((executePlan plan table).map primaryOf).Nodup ∧
    List.Sorted aggGE (executePlan plan table) ∧
    (executePlan plan table).length ≤ plan.limit ∧
    ∀ x ∈ executePlan plan table,
      x ∈ groupAgg plan.columns (table.filter (rowMatches plan.artistF plan.yearF)) ∧
      ∀ g ∈ groupAgg plan.columns (table.filter (rowMatches plan.artistF plan.yearF)),
        primaryOf g = primaryOf x → g.total_minutes ≤ x.total_minutes := by
  have hexec : executePlan plan table =
      (List.insertionSort aggGE (bestPerPrimary (groupAgg plan.columns
        (table.filter (rowMatches plan.artistF plan.yearF))))).take plan.limit := by
    unfold executePlan
    rw [hmode]
    rfl
  refine ⟨aggregate_data_ok req plan table h, ?_, ?_, ?_, ?_⟩
  · rw [hexec]
    exact sortTake_map_nodup _ _ _ (bestPerPrimary_nodup_primary _)
  · rw [hexec]
    exact sortTake_sorted _ _
  · rw [hexec]
    exact sortTake_length _ _
  · intro x hx
    rw [hexec] at hx
    have hxb := sortTake_mem _ _ _ hx
    exact ⟨bestPerPrimary_mem _ _ hxb, bestPerPrimary_max _ _ hxb⟩

/-- Witness for C2 at the concrete two-dimension ranked request over the
sample table, with the concrete output showing each artist once. -/
theorem top_per_group_unique_primary_witness :
    buildPlan reqRanked = .ok (planOf reqRanked) ∧
    (planOf reqRanked).ranked = true ∧
    ((executePlan (planOf reqRanked) sampleTable).map primaryOf).Nodup ∧
    executePlan (planOf reqRanked) sampleTable =
      [{ key := [.s "B", .s "t3"], total_minutes := 20, play_count := 1 },
       { key := [.s "A", .s "t1"], total_minutes := 10, play_count := 1 }] :=
  ⟨rfl, rfl,
    (top_per_group_unique_primary reqRanked (planOf reqRanked) sampleTable rfl rfl).2.1,
    by with_unfolding_all rfl⟩

/-- C3: in plain mode (chosen when the flag is off or only one dimension
is requested) the plan groups by the full requested dimension sequence,
computes the duration sum and the row count per group, orders rows by
total_minutes descending and caps at the limit; every output row carries
exactly the SUM(minutes_played) and COUNT(*) of its group, and group keys
are pairwise distinct. -/
theorem plain_mode_group_sum_order_limit (req : AggregateRequest) (plan : QueryPlan)
    (table : List PlayRecord) (h : buildPlan req = .ok plan)
    (hmode : plan.ranked = false) :
    aggregate_data req table = .ok (executePlan plan table) ∧
    List.Sorted aggGE (executePlan plan table) ∧
    (executePlan plan table).length ≤ plan.limit ∧
    ((executePlan plan table).map AggRow.key).Nodup ∧
    ∀ x ∈ executePlan plan table,
      x.key ∈ (table.filter (rowMatches plan.artistF plan.yearF)).map (groupKey plan.columns) ∧
      x.total_minutes = (((table.filter (rowMatches plan.artistF plan.yearF)).filter
        (fun r => decide (groupKey plan.columns r = x.key))).map
          PlayRecord.minutes_played).sum ∧
      x.play_count = ((table.filter (rowMatches plan.artistF plan.yearF)).filter
        (fun r => decide (groupKey plan.columns r = x.key))).length := by
  have hexec : executePlan plan table =
      (List.insertionSort aggGE (groupAgg plan.columns
        (table.filter (rowMatches plan.artistF plan.yearF)))).take plan.limit := by
    unfold executePlan
    rw [hmode]
    rfl
  refine ⟨aggregate_data_ok req plan table h, ?_, ?_, ?_, ?_⟩
  · rw [hexec]
    exact sortTake_sorted _ _
  · rw [hexec]
    exact sortTake_length _ _
  · rw [hexec]
    apply sortTake_map_nodup
    rw [groupAgg_map_key]
    exact firstDedup_nodup _
  · intro x hx
    rw [hexec] at hx
    exact groupAgg_mem _ _ _ (sortTake_mem _ _ _ hx)

/-- Witness for C3 at the spec's example: group_by artist_name,year with
no filters and limit 2 over records A/2020/10min, A/2021/5min and
B/2020/20min yields exactly the B 2020 row then the A 2020 row. -/
theorem plain_mode_group_sum_order_limit_witness :
    buildPlan reqExample = .ok (planOf reqExample) ∧
    (planOf reqExample).ranked = false ∧
    List.Sorted aggGE (executePlan (planOf reqExample) sampleTable) ∧
    aggregate_data reqExample sampleTable =
      .ok [{ key := [.s "B", .i 2020], total_minutes := 20, play_count := 1 },
           { key := [.s "A", .i 2020], total_minutes := 10, play_count := 1 }] :=
  ⟨rfl, rfl,
    (plain_mode_group_sum_order_limit reqExample (planOf reqExample) sampleTable
      rfl rfl).2.1,
    by with_unfolding_all rfl⟩

end SpotifyResearch
